import Mathlib

/-!
Verification of the device-communication and state-reconciliation core of
TempSense-GUI (files `src/esp_comm.rs` and `src/app.rs`), via a shallow
embedding: the worker thread's loop body becomes a step function on an
explicit worker state driven by a trace of external inputs (received
commands and serial I/O outcomes), and the owner-side (`TemplateApp`)
operations become pure functions on an explicit application state.
-/

section StringModel

/-- Rust `str::trim` on an explicit character list: drop Unicode
whitespace from both ends. -/
def trimChars (l : List Char) : List Char :=
  ((l.dropWhile Char.isWhitespace).reverse.dropWhile Char.isWhitespace).reverse

/-- Rust `str::split(sep)` on an explicit character list: split at every
occurrence of `sep`; the empty input yields one empty piece, like Rust. -/
def splitChar (sep : Char) : List Char → List (List Char)
  | [] => [[]]
  | c :: r =>
    if c = sep then [] :: splitChar sep r
    else
      match splitChar sep r with
      | h :: t => (c :: h) :: t
      | [] => [[c]]

/-- Rust `str::splitn(2, sep)` viewed through the source's
`if let (Some(k), Some(v))` use: `some (before, after)` split at the
first occurrence of `sep`, or `none` when `sep` does not occur (Rust then
yields a single piece and the second `next()` is `None`). -/
def splitFirst (sep : Char) : List Char → Option (List Char × List Char)
  | [] => none
  | c :: r =>
    if c = sep then some ([], r)
    else (splitFirst sep r).map (fun p => (c :: p.1, p.2))

/-- Value of a list of decimal digit characters. -/
def digitsToNat (l : List Char) : Nat :=
  l.foldl (fun a c => a * 10 + (c.toNat - 48)) 0

/-- Rust `str::parse::<f32>` as used by the telemetry parser, modelled
over exact rationals: an optional sign followed by a decimal literal
(`digits`, `digits.digits`, `digits.` or `.digits`) parses to its exact
value; anything else fails.  (Exponent forms, `inf` and `NaN` are not
modelled, and no rounding to binary32 is performed: the claims under
verification only exercise plain decimal literals, on which this model
and the Rust parser agree up to the float's decimal denotation.) -/
def parseF32 (cs : List Char) : Option Rat :=
  let neg : Bool :=
    match cs with
    | '-' :: _ => true
    | _ => false
  let cs1 : List Char :=
    match cs with
    | '-' :: r => r
    | '+' :: r => r
    | r => r
  let ip := cs1.takeWhile Char.isDigit
  let rest := cs1.dropWhile Char.isDigit
  match rest with
  | [] =>
    if ip.isEmpty then none
    else some (if neg then -(mkRat (digitsToNat ip) 1) else mkRat (digitsToNat ip) 1)
  | '.' :: fp =>
    if fp.all Char.isDigit && !(ip.isEmpty && fp.isEmpty) then
      some (if neg then -(mkRat (digitsToNat (ip ++ fp)) (10 ^ fp.length))
            else mkRat (digitsToNat (ip ++ fp)) (10 ^ fp.length))
    else none
  | _ => none

end StringModel

section EspComm

/-- Commands sent from the GUI thread to the ESP worker thread
(`esp_comm.rs`, `enum EspCommand`). -/
inductive EspCommand
  | Connect (port_name : String) (baud_rate : Nat)
  | Disconnect
  | SendCommand (s : String)
  | StopThread
deriving DecidableEq

/-- Status messages sent from the ESP worker thread to the GUI thread
(`esp_comm.rs`, `enum EspStatus`). -/
inductive EspStatus
  | Connected
  | Disconnected (reason : Option String)
  | Error (msg : String)
  | Message (text : String)
deriving DecidableEq

/-- Outcomes of the serial-port operations a single loop iteration may
perform, supplied by the environment (the OS serial driver): `none` means
the operation succeeded, `some e` that it failed with error text `e`. -/
structure SerialEnv where
  openErr : Option String
  writeErr : Option String
  flushErr : Option String
deriving DecidableEq

/-- Outcome of the non-blocking `port.read` attempt performed when no
command is pending (`esp_comm.rs` lines 101-118): a successful read of
at least one byte carrying the lossily-decoded text, a zero-byte read,
a timeout (expected, ignored), or a fatal read error. -/
inductive ReadResult
  | data (bytes : String)
  | noData
  | timedOut
  | fatal (e : String)
deriving DecidableEq

/-- One loop iteration's external input: what `command_rx.try_recv()`
returned (a command, `Empty`, or `Disconnected` i.e. the owner dropped
the sender), bundled with the serial I/O outcomes for that iteration. -/
inductive WorkerInput
  | recvCmd (c : EspCommand) (env : SerialEnv)
  | recvEmpty (r : ReadResult)
  | recvClosed
deriving DecidableEq

/-- The worker's mutable state: `serial_port` mirrors the
`Option<Box<dyn SerialPort>>` local (the handle itself is opaque, only
its presence matters), and `stopped` records that the loop has executed
`break` (so no further iterations run). -/
structure WorkerState where
  serial_port : Option Unit
  stopped : Bool
deriving DecidableEq

/-- Worker state at thread start (`esp_comm.rs` line 31): no open port. -/
def workerInit : WorkerState := ⟨none, false⟩

/-- One iteration of the `loop` body of `esp_worker_thread`
(`esp_comm.rs` lines 34-127), returning the successor state and the list
of statuses sent on `status_tx` during the iteration, in order.  Each
branch mirrors the source: `Connect` while a port is open is an error;
a failed open is an error and the port stays closed; `SendCommand`
write/flush failures emit `Error` then `Disconnected` and `break`;
`Disconnect` closes the port (or reports already disconnected) and does
NOT `break`; `StopThread` emits `Disconnected` and breaks; a pending
read can yield a trimmed `Message`, nothing, or on a fatal error
`Error` then `Disconnected` plus `break`; a closed command channel
makes the worker drop the port and break silently. -/
def workerStep (st : WorkerState) (inp : WorkerInput) : WorkerState × List EspStatus :=
  match inp with
  | .recvCmd c env =>
    match c with
    | .Connect port_name _baud_rate =>
      match st.serial_port with
      | some _ => (st, [.Error "Already connected or connection attempt in progress."])
      | none =>
        match env.openErr with
        | none => ({ st with serial_port := some () }, [.Connected])
        | some e =>
          ({ st with serial_port := none },
           [.Error ("Failed to connect to " ++ port_name ++ ": " ++ e)])
    | .SendCommand _command_str =>
      match st.serial_port with
      | some _ =>
        match env.writeErr with
        | some e =>
          (⟨none, true⟩,
           [.Error ("Failed to send command: " ++ e ++ ". Disconnecting."),
            .Disconnected (some ("Failed to send command: " ++ e ++ ". Disconnecting."))])
        | none =>
          match env.flushErr with
          | some e =>
            (⟨none, true⟩,
             [.Error ("Failed to flush serial port: " ++ e ++ ". Disconnecting."),
              .Disconnected (some ("Failed to flush serial port: " ++ e ++ ". Disconnecting."))])
          | none => (st, [])
      | none => (st, [.Error "Not connected to ESP. Cannot send command."])
    | .Disconnect =>
      match st.serial_port with
      | some _ => ({ st with serial_port := none }, [.Disconnected (some "Disconnected by user.")])
      | none => (st, [.Message "Already disconnected."])
    | .StopThread =>
      (⟨none, true⟩, [.Disconnected (some "ESP worker thread stopped.")])
  | .recvEmpty r =>
    match st.serial_port with
    | some _ =>
      match r with
      | .data bytes => (st, [.Message (String.mk (trimChars bytes.toList))])
      | .noData => (st, [])
      | .timedOut => (st, [])
      | .fatal e =>
        (⟨none, true⟩,
         [.Error ("Serial read error: " ++ e ++ ". Disconnecting."),
          .Disconnected (some ("Serial read error: " ++ e ++ ". Disconnecting."))])
    | none => (st, [])
  | .recvClosed => (⟨none, true⟩, [])

/-- The worker's loop run over a finite trace of iteration inputs: once
`stopped` is set (the Rust `break`), no further input is processed and
nothing more is emitted.  Returns the final state and the concatenated
status emissions. -/
def workerRun : WorkerState → List WorkerInput → WorkerState × List EspStatus
  | st, [] => (st, [])
  | st, i :: is =>
    if st.stopped then (st, [])
    else
      let p := workerStep st i
      let q := workerRun p.1 is
      (q.1, p.2 ++ q.2)

end EspComm

section App

/-- The owner-side application state (`app.rs`, `struct TemplateApp`),
restricted to the fields the communication/reconciliation core reads or
writes.  GUI-only fields (window page, OSC address strings, port/baud
text inputs, run flag) and raw OS resources are omitted; the
`Option<Sender<EspCommand>>` fields are modelled by their presence
(`true` = `Some(sender)`), which is all the core logic inspects.
Temperatures are Rust `i8` values; they are only ever assigned and
compared (never arithmetically combined), so plain `Int` is a faithful
carrier.  Skin temperatures are Rust `f32`; they are modelled as exact
rationals (see `parseF32`). -/
structure TemplateApp where
  pelt_temp_1 : Int
  pelt_temp_1_old : Int
  pelt_temp_2 : Int
  pelt_temp_2_old : Int
  esp_command_sender_1 : Bool
  esp_connected_1 : Bool
  esp_status_message_1 : String
  esp_command_sender_2 : Bool
  esp_connected_2 : Bool
  esp_status_message_2 : String
  esp_log : List String
  skin_temp_1 : Option Rat
  skin_temp_2 : Option Rat
  manual_pelt_1 : Bool
  manual_pelt_2 : Bool
deriving DecidableEq

/-- The non-GUI portion of `TemplateApp::default()` (`app.rs` lines
90-136): zero targets, `-127` sentinels for the previously-sent values,
no sessions, empty log, no telemetry, manual overrides off. -/
def appDefault : TemplateApp :=
  { pelt_temp_1 := 0
    pelt_temp_1_old := -127
    pelt_temp_2 := 0
    pelt_temp_2_old := -127
    esp_command_sender_1 := false
    esp_connected_1 := false
    esp_status_message_1 := "ESP L: Not connected."
    esp_command_sender_2 := false
    esp_connected_2 := false
    esp_status_message_2 := "ESP R: Not connected."
    esp_log := []
    skin_temp_1 := none
    skin_temp_2 := none
    manual_pelt_1 := false
    manual_pelt_2 := false }

/-- The list update performed by `add_esp_log_message` on `esp_log`
(`app.rs` lines 640-646): push the entry, then if the length exceeds
200, remove the oldest (front) entry. -/
def logPush (l : List String) (entry : String) : List String :=
  if (l ++ [entry]).length > 200 then (l ++ [entry]).drop 1 else l ++ [entry]

/-- `TemplateApp::add_esp_log_message` (`app.rs` lines 640-646).  The
`chrono::Local::now()` timestamp prefixed to each entry is wall-clock
input from outside the program and is omitted from the modelled entry
text; the entry keeps its `[identifier] message` shape, and the
size-bounding behaviour (`logPush`) is unchanged by the prefix. -/
def add_esp_log_message (s : TemplateApp) (esp_identifier : String) (message : String) :
    TemplateApp :=
  { s with esp_log := logPush s.esp_log ("[" ++ esp_identifier ++ "] " ++ message) }

/-- `TemplateApp::update_pelt_temp` (`app.rs` lines 139-161): route an
external `(device id, value)` setpoint event.  Ids `0`/`1` update the
corresponding target unless that device's manual override is set; any
other id logs a warning and falls back to updating `pelt_temp_1`
(device 0) unconditionally.  (The `println!` debug prints go to stdout,
not to program state, and are not modelled.) -/
def update_pelt_temp (s : TemplateApp) (_id : Int) (temp : Int) : TemplateApp :=
  match _id with
  | 0 => if s.manual_pelt_1 != true then { s with pelt_temp_1 := temp } else s
  | 1 => if s.manual_pelt_2 != true then { s with pelt_temp_2 := temp } else s
  | _ =>
    let s1 := add_esp_log_message s "APP"
      ("Invalid peltier _id: " ++ toString _id ++ ". Defaulting to pelt_temp_1")
    { s1 with pelt_temp_1 := temp }

/-- The Peltier-1 edge-change-detection fragment of
`TemplateApp::render_home_page` (`app.rs` lines 187-201), as a pure
per-tick function.  `sendErr` is the outcome of `sender.send(...)`
(`none` = delivered to the channel).  Returns the updated state and
`some v` when a `setTemp v` command was issued to the worker (i.e. the
`sender.send` call was made), `none` otherwise.  `pelt_temp_1_old` is
updated unconditionally at the end of the fragment, exactly as in the
source. -/
def render_home_page_pelt_1 (s : TemplateApp) (sendErr : Option String) :
    TemplateApp × Option Int :=
  let r :=
    if s.esp_connected_1 && s.pelt_temp_1 != s.pelt_temp_1_old then
      if s.esp_command_sender_1 then
        let command_to_send := "setTemp " ++ toString s.pelt_temp_1
        match sendErr with
        | some e =>
          (add_esp_log_message
            { s with esp_status_message_1 := "ESP L: Error sending command: " ++ e }
            "ESP L" ("Failed to send '" ++ command_to_send ++ "': " ++ e),
           some s.pelt_temp_1)
        | none =>
          (add_esp_log_message s "ESP L" ("Sent command: " ++ command_to_send),
           some s.pelt_temp_1)
      else (s, none)
    else if s.pelt_temp_1 != s.pelt_temp_1_old && !s.esp_connected_1 then
      (add_esp_log_message { s with esp_status_message_1 := "ESP L: Not connected." }
        "ESP L" "Attempted to send command while ESP L not connected.",
       none)
    else (s, none)
  ({ r.1 with pelt_temp_1_old := s.pelt_temp_1 }, r.2)

/-- The Peltier-2 edge-change-detection fragment of
`TemplateApp::render_home_page` (`app.rs` lines 220-234); identical to
the Peltier-1 fragment with the `_2` fields and `ESP R` labels. -/
def render_home_page_pelt_2 (s : TemplateApp) (sendErr : Option String) :
    TemplateApp × Option Int :=
  let r :=
    if s.esp_connected_2 && s.pelt_temp_2 != s.pelt_temp_2_old then
      if s.esp_command_sender_2 then
        let command_to_send := "setTemp " ++ toString s.pelt_temp_2
        match sendErr with
        | some e =>
          (add_esp_log_message
            { s with esp_status_message_2 := "ESP R: Error sending command: " ++ e }
            "ESP R" ("Failed to send '" ++ command_to_send ++ "': " ++ e),
           some s.pelt_temp_2)
        | none =>
          (add_esp_log_message s "ESP R" ("Sent command: " ++ command_to_send),
           some s.pelt_temp_2)
      else (s, none)
    else if s.pelt_temp_2 != s.pelt_temp_2_old && !s.esp_connected_2 then
      (add_esp_log_message { s with esp_status_message_2 := "ESP R: Not connected." }
        "ESP R" "Attempted to send command while ESP R not connected.",
       none)
    else (s, none)
  ({ r.1 with pelt_temp_2_old := s.pelt_temp_2 }, r.2)

/-- `TemplateApp::parse_esp_message_and_update_state`, per comma-separated
part (`app.rs` lines 650-668): split the part at the first `:`; trim key
and value; a `Skin_Temp_Smoothed` key with a numerically parsable value
updates the skin temperature of the device named by `esp_id_str`
(`"ESP L"` or `"ESP R"`); a parse failure is reported to the log; any
other key (or a part without `:`) is ignored. -/
def parsePart (esp_id_str : String) (st : TemplateApp) (part : List Char) : TemplateApp :=
  match splitFirst ':' part with
  | some (key_raw, value_raw) =>
    let key := trimChars key_raw
    let value_str := trimChars value_raw
    if key = "Skin_Temp_Smoothed".toList then
      match parseF32 value_str with
      | some temp_f32 =>
        if esp_id_str = "ESP L" then { st with skin_temp_1 := some temp_f32 }
        else if esp_id_str = "ESP R" then { st with skin_temp_2 := some temp_f32 }
        else st
      | none =>
        add_esp_log_message st esp_id_str
          ("Failed to parse Skin_Temp_Smoothed value: '" ++ String.mk value_str ++ "'")
    else st
  | none => st

/-- `TemplateApp::parse_esp_message_and_update_state` (`app.rs` lines
648-670): fold `parsePart` over the comma-separated parts of the
message line. -/
def parse_esp_message_and_update_state (s : TemplateApp) (esp_id_str msg : String) :
    TemplateApp :=
  (splitChar ',' msg.toList).foldl (parsePart esp_id_str) s

end App

section TraceProperties

/-- Fold over a status trace of the flag "the last connection event seen
was `Disconnected` (with no `Connected` since)": `Connected` clears it,
`Disconnected` sets it, other statuses leave it. -/
def armAfter : Bool → List EspStatus → Bool
  | a, [] => a
  | _, .Connected :: r => armAfter false r
  | _, .Disconnected _ :: r => armAfter true r
  | a, .Error _ :: r => armAfter a r
  | a, .Message _ :: r => armAfter a r

/-- The literal trace property claimed by the spec's channel invariant:
scanning with `armAfter`'s flag, no `Message` or `Error` may appear
while the flag is set (i.e. after a `Disconnected` and before the next
`Connected`). -/
def noStrayMsgErr : Bool → List EspStatus → Bool
  | _, [] => true
  | _, .Connected :: r => noStrayMsgErr false r
  | _, .Disconnected _ :: r => noStrayMsgErr true r
  | a, .Error _ :: r => !a && noStrayMsgErr a r
  | a, .Message _ :: r => !a && noStrayMsgErr a r

/-- Weakened trace property that the worker actually guarantees: between
a `Disconnected` and the next `Connected`, every `Message` is the
`Already disconnected.` reply to a redundant `Disconnect` command, and
every `Error` is either the not-connected reply to a `SendCommand` or a
failed-`Connect` report — never device data and never a transport
error (both require an open port, and the port is closed there). -/
def PostDiscOk : Bool → List EspStatus → Prop
  | _, [] => True
  | _, .Connected :: r => PostDiscOk false r
  | _, .Disconnected _ :: r => PostDiscOk true r
  | a, .Message t :: r =>
    (a = true → t = "Already disconnected.") ∧ PostDiscOk a r
  | a, .Error m :: r =>
    (a = true →
      m = "Not connected to ESP. Cannot send command." ∨
      ∃ p e, m = "Failed to connect to " ++ p ++ ": " ++ e) ∧ PostDiscOk a r

/-- Fold over a status trace of the flag "the last connection event seen
was `Connected`": dual to `armAfter`. -/
def connAfter : Bool → List EspStatus → Bool
  | a, [] => a
  | _, .Connected :: r => connAfter true r
  | _, .Disconnected _ :: r => connAfter false r
  | a, .Error _ :: r => connAfter a r
  | a, .Message _ :: r => connAfter a r

/-- The trace never contains two `Connected` events without a
`Disconnected` strictly between them: scanning with `connAfter`'s flag,
every `Connected` must find the flag clear. -/
def NoDupConnected : Bool → List EspStatus → Prop
  | _, [] => True
  | a, .Connected :: r => a = false ∧ NoDupConnected true r
  | _, .Disconnected _ :: r => NoDupConnected false r
  | a, .Error _ :: r => NoDupConnected a r
  | a, .Message _ :: r => NoDupConnected a r

end TraceProperties

section TickRuns

/-- Per-tick environment for the Peltier-1 edge-detection fragment: the
target temperature, connectivity flag and sender presence as set by the
rest of the application before `render_home_page` runs, plus the channel
send outcome. -/
structure TickEnv where
  target : Int
  connected : Bool
  senderPresent : Bool
  sendErr : Option String
deriving DecidableEq

/-- Instrumented multi-tick run of the Peltier-1 fragment.  The
application state is threaded through the ticks (in particular
`pelt_temp_1_old` persists); `lastSent` is a ghost variable recording
the last `setTemp` value actually delivered to the worker (updated
exactly when a command is issued and the channel send succeeds) — the
"last value actually sent" the claim under test speaks about, which the
code itself does not track.  Each output pair is (the command value
issued this tick if any, the ghost value as of the start of the tick). -/
def runTicksPelt1 (s : TemplateApp) (lastSent : Option Int) :
    List TickEnv → List (Option Int × Option Int)
  | [] => []
  | env :: rest =>
    let s0 := { s with
      pelt_temp_1 := env.target
      esp_connected_1 := env.connected
      esp_command_sender_1 := env.senderPresent }
    let p := render_home_page_pelt_1 s0 env.sendErr
    let lastSent2 := if p.2.isSome && env.sendErr.isNone then p.2 else lastSent
    (p.2, lastSent) :: runTicksPelt1 p.1 lastSent2 rest

/-- A connected application state with a present Peltier-1 sender and a
freshly changed target of 5, used to witness the edge-detection
properties. -/
def c8State : TemplateApp :=
  { appDefault with pelt_temp_1 := 5, esp_connected_1 := true, esp_command_sender_1 := true }

end TickRuns

section HelperLemmas

/-- Edge-detection properties of the Peltier-1 fragment of
`render_home_page`: a command is issued only while connected with the
target differing from the tracked previous-tick value; a changed target
while disconnected is logged; the tracked value updates every tick. -/
theorem render_pelt_1_props (s : TemplateApp) (sendErr : Option String) :
    (∀ v, (render_home_page_pelt_1 s sendErr).2 = some v →
       s.esp_connected_1 = true ∧ s.pelt_temp_1 ≠ s.pelt_temp_1_old ∧ v = s.pelt_temp_1) ∧
    ((s.esp_connected_1 = false → s.pelt_temp_1 ≠ s.pelt_temp_1_old →
       (render_home_page_pelt_1 s sendErr).2 = none ∧
       (render_home_page_pelt_1 s sendErr).1.esp_log =
         logPush s.esp_log "[ESP L] Attempted to send command while ESP L not connected.") ∧
     (render_home_page_pelt_1 s sendErr).1.pelt_temp_1_old = s.pelt_temp_1) := by
  unfold render_home_page_pelt_1
  by_cases hc : s.esp_connected_1 <;>
    by_cases hd : s.pelt_temp_1 = s.pelt_temp_1_old <;>
    by_cases hs : s.esp_command_sender_1 <;>
    rcases sendErr with _ | e <;>
    simp [hc, hd, hs, add_esp_log_message]

/-- Edge-detection properties of the Peltier-2 fragment of
`render_home_page`; mirror of `render_pelt_1_props`. -/
theorem render_pelt_2_props (s : TemplateApp) (sendErr : Option String) :
    (∀ v, (render_home_page_pelt_2 s sendErr).2 = some v →
       s.esp_connected_2 = true ∧ s.pelt_temp_2 ≠ s.pelt_temp_2_old ∧ v = s.pelt_temp_2) ∧
    ((s.esp_connected_2 = false → s.pelt_temp_2 ≠ s.pelt_temp_2_old →
       (render_home_page_pelt_2 s sendErr).2 = none ∧
       (render_home_page_pelt_2 s sendErr).1.esp_log =
         logPush s.esp_log "[ESP R] Attempted to send command while ESP R not connected.") ∧
     (render_home_page_pelt_2 s sendErr).1.pelt_temp_2_old = s.pelt_temp_2) := by
  unfold render_home_page_pelt_2
  by_cases hc : s.esp_connected_2 <;>
    by_cases hd : s.pelt_temp_2 = s.pelt_temp_2_old <;>
    by_cases hs : s.esp_command_sender_2 <;>
    rcases sendErr with _ | e <;>
    simp [hc, hd, hs, add_esp_log_message]

/-- A worker with no open port and a still-open but empty command channel
just sleeps: any number of command-free iterations leave the state
unchanged and emit nothing. -/
theorem workerRun_idle_timedOut (m : Nat) :
    workerRun ⟨none, false⟩ (List.replicate m (.recvEmpty .timedOut)) = (⟨none, false⟩, []) := by
  induction m with
  | zero => rfl
  | succ k ih => simp [List.replicate_succ, workerRun, workerStep, ih]

/-- Closed form of a sequence of rolling-log pushes: starting within the
cap, folding `logPush` over the appended messages keeps exactly the last
200 of the full append sequence (all of it while under the cap). -/
theorem foldl_logPush_drop (ms : List String) :
    ∀ l : List String, l.length ≤ 200 →
      List.foldl logPush l ms = (l ++ ms).drop (l.length + ms.length - 200) := by
  induction ms with
  | nil =>
    intro l h
    rw [List.foldl_nil, List.append_nil, List.length_nil, Nat.add_zero,
      Nat.sub_eq_zero_of_le h, List.drop_zero]
  | cons m rest ih =>
    intro l h
    rw [List.foldl_cons]
    by_cases hl : l.length = 200
    · rcases l with _ | ⟨a, t⟩
      · simp at hl
      · have ht : t.length = 199 := by simpa using hl
        have hpush : logPush (a :: t) m = t ++ [m] := by
          unfold logPush
          rw [if_pos (by simp [ht])]
          simp
        rw [hpush, ih (t ++ [m]) (by simp [ht])]
        have h2 : (t ++ [m]).length + rest.length - 200 = rest.length := by
          simp [ht]
        have h3 : (a :: t).length + (m :: rest).length - 200 = rest.length + 1 := by
          simp [ht]
        rw [h2, h3, List.cons_append, List.drop_succ_cons, List.append_assoc,
          List.singleton_append]
    · have hlt : l.length < 200 := lt_of_le_of_ne h hl
      have hpush : logPush l m = l ++ [m] := by
        unfold logPush
        rw [if_neg (by simp; omega)]
      have h4 : (l ++ [m]).length + rest.length - 200 =
          l.length + (m :: rest).length - 200 := by
        simp
        omega
      rw [hpush, ih (l ++ [m]) (by simp; omega), h4, List.append_assoc,
        List.singleton_append]

/-- `armAfter` distributes over trace concatenation. -/
theorem armAfter_append (a : Bool) (xs ys : List EspStatus) :
    armAfter a (xs ++ ys) = armAfter (armAfter a xs) ys := by
  induction xs generalizing a with
  | nil => rfl
  | cons x r ih => cases x <;> simp [armAfter, ih]

/-- `PostDiscOk` splits over trace concatenation, resuming with the
scanned flag. -/
theorem postDiscOk_append (a : Bool) (xs ys : List EspStatus) :
    PostDiscOk a (xs ++ ys) ↔ PostDiscOk a xs ∧ PostDiscOk (armAfter a xs) ys := by
  induction xs generalizing a with
  | nil => simp [PostDiscOk, armAfter]
  | cons x r ih => cases x <;> simp [PostDiscOk, armAfter, ih, and_assoc]

/-- `connAfter` distributes over trace concatenation. -/
theorem connAfter_append (f : Bool) (xs ys : List EspStatus) :
    connAfter f (xs ++ ys) = connAfter (connAfter f xs) ys := by
  induction xs generalizing f with
  | nil => rfl
  | cons x r ih => cases x <;> simp [connAfter, ih]

/-- `NoDupConnected` splits over trace concatenation, resuming with the
scanned flag. -/
theorem noDupConnected_append (f : Bool) (xs ys : List EspStatus) :
    NoDupConnected f (xs ++ ys) ↔
      NoDupConnected f xs ∧ NoDupConnected (connAfter f xs) ys := by
  induction xs generalizing f with
  | nil => simp [NoDupConnected, connAfter]
  | cons x r ih => cases x <;> simp [NoDupConnected, connAfter, ih, and_assoc]

/-- Single-iteration invariant behind the post-`Disconnected`
quiescence property: provided the scan flag being set implies the port
is closed, the iteration's emissions satisfy `PostDiscOk` and the
updated flag being set again implies the new port is closed. -/
theorem workerStep_postDisc (st : WorkerState) (i : WorkerInput) (a : Bool)
    (h : a = true → st.serial_port = none) :
    PostDiscOk a (workerStep st i).2 ∧
    (armAfter a (workerStep st i).2 = true → (workerStep st i).1.serial_port = none) := by
  rcases st with ⟨sp, stp⟩
  have ha : ∀ u : Unit, sp = some u → a = false := by
    intro u hu
    cases a with
    | false => rfl
    | true => rw [hu] at h; simpa using h rfl
  rcases i with ⟨c, env⟩ | r | _
  · rcases env with ⟨oe, we, fe⟩
    rcases c with ⟨pn, br⟩ | _ | cs | _
    · rcases sp with _ | u
      · rcases oe with _ | e
        · simp [workerStep, PostDiscOk, armAfter]
        · refine ⟨⟨fun _ => Or.inr ⟨pn, e, rfl⟩, trivial⟩, fun _ => rfl⟩
      · simp [workerStep, PostDiscOk, armAfter, ha u rfl]
    · rcases sp with _ | u
      · exact ⟨⟨fun _ => rfl, trivial⟩, fun _ => rfl⟩
      · simp [workerStep, PostDiscOk, armAfter]
    · rcases sp with _ | u
      · exact ⟨⟨fun _ => Or.inl rfl, trivial⟩, fun _ => rfl⟩
      · rcases we with _ | e
        · rcases fe with _ | e
          · simp [workerStep, PostDiscOk, armAfter, ha u rfl]
          · simp [workerStep, PostDiscOk, armAfter, ha u rfl]
        · simp [workerStep, PostDiscOk, armAfter, ha u rfl]
    · simp [workerStep, PostDiscOk, armAfter]
  · rcases sp with _ | u
    · simp [workerStep, PostDiscOk, armAfter]
    · rcases r with b | _ | _ | e <;>
        simp [workerStep, PostDiscOk, armAfter, ha u rfl]
  · simp [workerStep, PostDiscOk, armAfter]

/-- After a `Disconnected` with no `Connected` since, the worker's port
is closed and the only further `Message`/`Error` emissions are
idle-state command replies, over any whole run. -/
theorem workerRun_postDisc (inputs : List WorkerInput) :
    ∀ (st : WorkerState) (a : Bool), (a = true → st.serial_port = none) →
      PostDiscOk a (workerRun st inputs).2 := by
  induction inputs with
  | nil => intro st a _; exact trivial
  | cons i is ih =>
    intro st a h
    by_cases hs : st.stopped = true
    · simp only [workerRun, if_pos hs]
      exact trivial
    · have hstep := workerStep_postDisc st i a h
      simp only [workerRun, if_neg hs]
      rw [postDiscOk_append]
      exact ⟨hstep.1, ih _ _ hstep.2⟩

/-- Single-iteration invariant behind the no-duplicate-`Connected`
property: provided a closed port implies the scan flag is clear, the
iteration's emissions satisfy `NoDupConnected`, and the invariant is
re-established for the updated flag whenever the loop continues. -/
theorem workerStep_noDup (st : WorkerState) (i : WorkerInput) (f : Bool)
    (h : st.serial_port = none → f = false) :
    NoDupConnected f (workerStep st i).2 ∧
    ((workerStep st i).1.stopped = false → (workerStep st i).1.serial_port = none →
      connAfter f (workerStep st i).2 = false) := by
  rcases st with ⟨sp, stp⟩
  rcases i with ⟨c, env⟩ | r | _
  · rcases env with ⟨oe, we, fe⟩
    rcases c with ⟨pn, br⟩ | _ | cs | _
    · rcases sp with _ | u
      · rcases oe with _ | e
        · exact ⟨⟨h rfl, trivial⟩, by simp [workerStep]⟩
        · simp [workerStep, NoDupConnected, connAfter, h rfl]
      · simp [workerStep, NoDupConnected, connAfter]
    · rcases sp with _ | u
      · simp [workerStep, NoDupConnected, connAfter, h rfl]
      · simp [workerStep, NoDupConnected, connAfter]
    · rcases sp with _ | u
      · simp [workerStep, NoDupConnected, connAfter, h rfl]
      · rcases we with _ | e
        · rcases fe with _ | e
          · simp [workerStep, NoDupConnected, connAfter]
          · simp [workerStep, NoDupConnected, connAfter]
        · simp [workerStep, NoDupConnected, connAfter]
    · simp [workerStep, NoDupConnected, connAfter]
  · rcases sp with _ | u
    · simp [workerStep, NoDupConnected, connAfter, h rfl]
    · rcases r with b | _ | _ | e <;>
        simp [workerStep, NoDupConnected, connAfter]
  · simp [workerStep, NoDupConnected, connAfter]

/-- The no-duplicate-`Connected` trace property holds of any whole run,
given the scan-flag invariant at the start. -/
theorem workerRun_noDup (inputs : List WorkerInput) :
    ∀ (st : WorkerState) (f : Bool),
      (st.stopped = false → st.serial_port = none → f = false) →
      NoDupConnected f (workerRun st inputs).2 := by
  induction inputs with
  | nil => intro st f _; exact trivial
  | cons i is ih =>
    intro st f h
    by_cases hs : st.stopped = true
    · simp only [workerRun, if_pos hs]
      exact trivial
    · have hs' : st.stopped = false := by
        cases hb : st.stopped
        · rfl
        · exact absurd hb hs
      have hstep := workerStep_noDup st i f (h hs')
      simp only [workerRun, if_neg hs]
      rw [noDupConnected_append]
      exact ⟨hstep.1, ih _ _ hstep.2⟩

end HelperLemmas

/-- C2 counterexample: the claim says that once the worker has emitted
`Disconnected`, it emits no further `Message` or `Error` until a new
`Connected`.  At the concrete command sequence `Connect` (ok),
`Disconnect`, `Disconnect`, `SendCommand` the worker's trace is
`[Connected, Disconnected("Disconnected by user."),
Message("Already disconnected."),
Error("Not connected to ESP. Cannot send command.")]` — a `Message` and
an `Error` both arrive after the `Disconnected` with no `Connected`
in between (`esp_comm.rs` lines 76-78 and 83-85; possible because the
`Disconnect` branch does not `break`), so the scanned trace property
`noStrayMsgErr` fails. -/
theorem c2_counterexample :
    noStrayMsgErr false
      (workerRun workerInit
        [.recvCmd (.Connect "/dev/ttyUSB0" 115200) ⟨none, none, none⟩,
         .recvCmd .Disconnect ⟨none, none, none⟩,
         .recvCmd .Disconnect ⟨none, none, none⟩,
         .recvCmd (.SendCommand "PING") ⟨none, none, none⟩]).2 = false := by
  decide

/-- C2 (amended): after the worker emits `Disconnected`, its serial
handle is closed, and until it emits a new `Connected` every `Message`
it emits is the `Already disconnected.` reply to a redundant
`Disconnect` command and every `Error` is either the
`Not connected...` reply to a `SendCommand` or a failed-`Connect`
report (`Failed to connect to <port>: <error>`) — it emits no device
data and no transport error until a new `Connected`, which itself only
follows a new `Connect`. -/
theorem c2_amended_post_disconnect_idle_replies (inputs : List WorkerInput) :
    PostDiscOk false (workerRun workerInit inputs).2 :=
  workerRun_postDisc inputs workerInit false (fun h => absurd h (by simp))

/-- C4: over every input trace, the worker never emits `Connected` twice
without an intervening `Disconnected` (the `NoDupConnected` scan);
moreover a `Connect` command arriving while the port is open emits
exactly the already-connected `Error` (not `Connected`) and leaves the
state unchanged, and any emission of `Connected` happens exactly on a
transition from no open port to an open port. -/
theorem c4_no_duplicate_connected :
    (∀ inputs, NoDupConnected false (workerRun workerInit inputs).2) ∧
    (∀ pn br env, workerStep ⟨some (), false⟩ (.recvCmd (.Connect pn br) env) =
       (⟨some (), false⟩, [.Error "Already connected or connection attempt in progress."])) ∧
    (∀ st i, EspStatus.Connected ∈ (workerStep st i).2 →
       st.serial_port = none ∧ (workerStep st i).1.serial_port = some ()) := by
  refine ⟨fun inputs => workerRun_noDup inputs workerInit false (fun _ _ => rfl),
    fun pn br env => rfl, fun st i hmem => ?_⟩
  rcases st with ⟨sp, stp⟩
  rcases i with ⟨c, env⟩ | r | _
  · rcases env with ⟨oe, we, fe⟩
    rcases c with ⟨pn, br⟩ | _ | cs | _ <;> rcases sp with _ | u
    · rcases oe with _ | e <;> simp_all [workerStep]
    · simp_all [workerStep]
    · simp_all [workerStep]
    · simp_all [workerStep]
    · simp_all [workerStep]
    · rcases we with _ | e
      · rcases fe with _ | e <;> simp_all [workerStep]
      · simp_all [workerStep]
    · simp_all [workerStep]
    · simp_all [workerStep]
  · rcases sp with _ | u
    · simp_all [workerStep]
    · rcases r with b | _ | _ | e <;> simp_all [workerStep]
  · simp_all [workerStep]

/-- C4 witness: a successful `Connect` from the initial (port-closed)
state does emit `Connected`, and it is a transition from no open port
to an open port. -/
theorem c4_witness :
    EspStatus.Connected ∈
      (workerStep workerInit (.recvCmd (.Connect "/dev/ttyUSB0" 115200) ⟨none, none, none⟩)).2 ∧
    (workerInit.serial_port = none ∧
      (workerStep workerInit
        (.recvCmd (.Connect "/dev/ttyUSB0" 115200) ⟨none, none, none⟩)).1.serial_port = some ()) :=
  ⟨by decide,
   c4_no_duplicate_connected.2.2 workerInit
     (.recvCmd (.Connect "/dev/ttyUSB0" 115200) ⟨none, none, none⟩) (by decide)⟩

/-- C1: the spec claims the worker's loop exits within a bounded number
of steps after emitting `Disconnected` in response to a user
`Disconnect`, so the orchestrator's thread join on observing
`Disconnected` is bounded.  The code contradicts this: the
`EspCommand::Disconnect` branch (`esp_comm.rs` lines 80-92) emits
`Disconnected("Disconnected by user.")` but has no `break` (its own
comment says "If this command should also stop the thread, add
'break;'"), so while the orchestrator still holds the command sender
(`try_recv` keeps yielding `Empty`) the loop runs for arbitrarily many
further iterations without stopping — the join in the `Disconnected`
branch of `TemplateApp::update` (`app.rs` lines 701-712), performed
before the sender is cleared, would block forever.  This theorem
evaluates the model at the failing input: after `Connect` (successful)
then `Disconnect`, followed by any number `n` of command-free
iterations, the worker has emitted `Disconnected` yet is still not
stopped. -/
theorem c1_worker_not_stopped_after_user_disconnect (n : Nat) :
    (workerRun workerInit
      (.recvCmd (.Connect "/dev/ttyUSB0" 115200) ⟨none, none, none⟩ ::
       .recvCmd .Disconnect ⟨none, none, none⟩ ::
       List.replicate n (.recvEmpty .timedOut))).1.stopped = false ∧
    (workerRun workerInit
      (.recvCmd (.Connect "/dev/ttyUSB0" 115200) ⟨none, none, none⟩ ::
       .recvCmd .Disconnect ⟨none, none, none⟩ ::
       List.replicate n (.recvEmpty .timedOut))).2 =
      [.Connected, .Disconnected (some "Disconnected by user.")] := by
  constructor <;> simp [workerRun, workerStep, workerInit, workerRun_idle_timedOut n]

/-- C3 counterexample: the claim says every failure leaves the worker's
command loop running, ready to process a subsequent `Connect` on the
same channel.  At the concrete input `Connect` (ok), `SendCommand` with
a failing write, `Connect` (ok) again, the write failure executes
`break` (`esp_comm.rs` line 66): the final state is stopped and the
third command is never processed (the trace contains no second
`Connected`). -/
theorem c3_counterexample :
    workerRun workerInit
      [.recvCmd (.Connect "/dev/ttyUSB0" 115200) ⟨none, none, none⟩,
       .recvCmd (.SendCommand "setTemp 10") ⟨none, some "write error", none⟩,
       .recvCmd (.Connect "/dev/ttyUSB0" 115200) ⟨none, none, none⟩] =
    (⟨none, true⟩,
     [.Connected,
      .Error "Failed to send command: write error. Disconnecting.",
      .Disconnected (some "Failed to send command: write error. Disconnecting.")]) := by
  decide

/-- C3 (amended): every failure is converted into `Error`/`Disconnected`
status events and leaves the worker with no open port, but only a failed
open is non-fatal to the loop (the worker stays in its loop and can
accept and process a subsequent `Connect` on the same channel); a failed
write, failed flush or fatal read error emits `Error` then
`Disconnected` and terminates the loop (`break`), so a subsequent
`Connect` needs a fresh worker thread and channel. -/
theorem c3_amended_failure_paths (pn pn2 : String) (br br2 : Nat) (e cs : String) :
    workerStep workerInit (.recvCmd (.Connect pn br) ⟨some e, none, none⟩) =
      (workerInit, [.Error ("Failed to connect to " ++ pn ++ ": " ++ e)]) ∧
    workerRun workerInit
      [.recvCmd (.Connect pn br) ⟨some e, none, none⟩,
       .recvCmd (.Connect pn2 br2) ⟨none, none, none⟩] =
      (⟨some (), false⟩,
       [.Error ("Failed to connect to " ++ pn ++ ": " ++ e), .Connected]) ∧
    workerStep ⟨some (), false⟩ (.recvCmd (.SendCommand cs) ⟨none, some e, none⟩) =
      (⟨none, true⟩,
       [.Error ("Failed to send command: " ++ e ++ ". Disconnecting."),
        .Disconnected (some ("Failed to send command: " ++ e ++ ". Disconnecting."))]) ∧
    workerStep ⟨some (), false⟩ (.recvCmd (.SendCommand cs) ⟨none, none, some e⟩) =
      (⟨none, true⟩,
       [.Error ("Failed to flush serial port: " ++ e ++ ". Disconnecting."),
        .Disconnected (some ("Failed to flush serial port: " ++ e ++ ". Disconnecting."))]) ∧
    workerStep ⟨some (), false⟩ (.recvEmpty (.fatal e)) =
      (⟨none, true⟩,
       [.Error ("Serial read error: " ++ e ++ ". Disconnecting."),
        .Disconnected (some ("Serial read error: " ++ e ++ ". Disconnecting."))]) :=
  ⟨rfl, rfl, rfl, rfl, rfl⟩

/-- C5: external setpoint events for the known device ids `0` and `1`
are gated by the corresponding manual-override flag: with the flag set
the event leaves the state (in particular the target temperature)
unchanged; with it clear the event sets exactly that device's target. -/
theorem c5_setpoint_gating (s : TemplateApp) (temp : Int) :
    (s.manual_pelt_1 = true → update_pelt_temp s 0 temp = s) ∧
    (s.manual_pelt_1 = false → update_pelt_temp s 0 temp = { s with pelt_temp_1 := temp }) ∧
    (s.manual_pelt_2 = true → update_pelt_temp s 1 temp = s) ∧
    (s.manual_pelt_2 = false → update_pelt_temp s 1 temp = { s with pelt_temp_2 := temp }) := by
  refine ⟨fun h => ?_, fun h => ?_, fun h => ?_, fun h => ?_⟩ <;>
    simp [update_pelt_temp, h]

/-- C5 witness: the event `(0, 77)` with device 0's override on leaves
the state unchanged. -/
theorem c5_witness :
    ({ appDefault with manual_pelt_1 := true } : TemplateApp).manual_pelt_1 = true ∧
    update_pelt_temp { appDefault with manual_pelt_1 := true } 0 77 =
      { appDefault with manual_pelt_1 := true } :=
  ⟨rfl, (c5_setpoint_gating { appDefault with manual_pelt_1 := true } 77).1 rfl⟩

/-- C6: an external setpoint event whose device id is outside `{0, 1}`
is not dropped silently: the default arm of `update_pelt_temp` appends a
warning entry to the shared log and applies the value to device 0's
target temperature. -/
theorem c6_unknown_id_warns_and_falls_back (s : TemplateApp) (_id temp : Int)
    (h0 : _id ≠ 0) (h1 : _id ≠ 1) :
    (update_pelt_temp s _id temp).pelt_temp_1 = temp ∧
    (update_pelt_temp s _id temp).esp_log =
      logPush s.esp_log
        ("[APP] " ++ ("Invalid peltier _id: " ++ toString _id ++ ". Defaulting to pelt_temp_1")) := by
  unfold update_pelt_temp
  split
  · exact absurd rfl h0
  · exact absurd rfl h1
  · exact ⟨rfl, rfl⟩

/-- C6 witness: the event `(5, 42)` updates device 0's target to 42 and
logs the warning. -/
theorem c6_witness :
    ((5 : Int) ≠ 0 ∧ (5 : Int) ≠ 1) ∧
    ((update_pelt_temp appDefault 5 42).pelt_temp_1 = 42 ∧
      (update_pelt_temp appDefault 5 42).esp_log =
        logPush appDefault.esp_log
          ("[APP] " ++ ("Invalid peltier _id: " ++ toString (5 : Int) ++ ". Defaulting to pelt_temp_1"))) :=
  ⟨⟨by decide, by decide⟩, c6_unknown_id_warns_and_falls_back appDefault 5 42 (by decide) (by decide)⟩

/-- C7 (implicit): the unknown-id fallback path performs no
manual-override check: for any id outside `{0, 1}`, the event overwrites
device 0's target temperature even while device 0's `manual_pelt_1` flag
is set — unlike events addressed to device 0 directly, which the flag
blocks (`c5_setpoint_gating`). -/
theorem c7_fallback_bypasses_override (s : TemplateApp) (_id temp : Int)
    (hm : s.manual_pelt_1 = true) (h0 : _id ≠ 0) (h1 : _id ≠ 1) :
    (update_pelt_temp s _id temp).pelt_temp_1 = temp := by
  unfold update_pelt_temp
  split
  · exact absurd rfl h0
  · exact absurd rfl h1
  · rfl

/-- C7 witness: with device 0's override on, the event `(2, 33)` still
overwrites device 0's target. -/
theorem c7_witness :
    (({ appDefault with manual_pelt_1 := true } : TemplateApp).manual_pelt_1 = true ∧
      (2 : Int) ≠ 0 ∧ (2 : Int) ≠ 1) ∧
    (update_pelt_temp { appDefault with manual_pelt_1 := true } 2 33).pelt_temp_1 = 33 :=
  ⟨⟨rfl, by decide, by decide⟩,
   c7_fallback_bypasses_override { appDefault with manual_pelt_1 := true } 2 33 rfl
     (by decide) (by decide)⟩

/-- C9: telemetry parsing.  `"Skin_Temp_Smoothed:12.12,Exterior_Temp:18.73"`
sets the addressed device's skin temperature to 12.12 (`mkRat 1212 100`)
and touches nothing else; an unparsable `Skin_Temp_Smoothed` value
(`"abc"`) appends a reported parse failure to the log and leaves the
prior skin temperatures unchanged; unknown keys are ignored; and a
failing pair does not stop the remaining pairs on the line from being
parsed. -/
theorem c9_telemetry_parsing (s : TemplateApp) :
    parse_esp_message_and_update_state s "ESP L" "Skin_Temp_Smoothed:12.12,Exterior_Temp:18.73" =
      { s with skin_temp_1 := some (mkRat 1212 100) } ∧
    parse_esp_message_and_update_state s "ESP R" "Skin_Temp_Smoothed:12.12,Exterior_Temp:18.73" =
      { s with skin_temp_2 := some (mkRat 1212 100) } ∧
    parse_esp_message_and_update_state s "ESP L" "Skin_Temp_Smoothed:abc" =
      { s with esp_log :=
          logPush s.esp_log "[ESP L] Failed to parse Skin_Temp_Smoothed value: 'abc'" } ∧
    parse_esp_message_and_update_state s "ESP L" "Skin_Temp_Smoothed:abc,Skin_Temp_Smoothed:12.12" =
      { s with skin_temp_1 := some (mkRat 1212 100),
               esp_log :=
                 logPush s.esp_log "[ESP L] Failed to parse Skin_Temp_Smoothed value: 'abc'" } ∧
    parse_esp_message_and_update_state s "ESP L" "Unknown_Key:55.5,AlsoUnknown:1" = s :=
  ⟨rfl, rfl, rfl, rfl, rfl⟩

/-- C8 counterexample: the claim says a `setTemp` command is issued only
when the current target differs from the last value *actually sent*.
The code compares against `pelt_temp_1_old`, which is overwritten every
tick whether or not anything was delivered, so the two notions diverge:
in the concrete three-tick run below — target 5 while connected (sent,
so the last value actually sent becomes 5); target 3 while disconnected
(nothing sent, but `pelt_temp_1_old` still becomes 3); target 5 while
connected again — the third tick issues `setTemp 5` although 5 equals
the last value actually sent.  The `List.all` check is the claim's
"issued only when the value differs from the last actually sent"
condition over the instrumented run, and it fails. -/
theorem c8_counterexample :
    (runTicksPelt1 appDefault none
      [⟨5, true, true, none⟩, ⟨3, false, true, none⟩, ⟨5, true, true, none⟩]).all
      (fun pr => !(pr.1.isSome && pr.1 == pr.2)) = false := by
  decide

/-- C8 (amended): per tick and device, a `setTemp` command is issued
only while the device is connected and only when the current target
differs from the tracked `pelt_temp_old` value — which records the
target as of the previous tick, updated unconditionally at the end of
every tick whether or not a command was delivered (so failed deliveries
are not retried), and which therefore need not equal the last value
actually sent.  When the device is not connected and the target changed
from the tracked value, the failed delivery is reported in the log, and
no command is issued. -/
theorem c8_amended_edge_detection (s : TemplateApp) (sendErr : Option String) :
    (∀ v, (render_home_page_pelt_1 s sendErr).2 = some v →
       s.esp_connected_1 = true ∧ s.pelt_temp_1 ≠ s.pelt_temp_1_old ∧ v = s.pelt_temp_1) ∧
    (s.esp_connected_1 = false → s.pelt_temp_1 ≠ s.pelt_temp_1_old →
       (render_home_page_pelt_1 s sendErr).2 = none ∧
       (render_home_page_pelt_1 s sendErr).1.esp_log =
         logPush s.esp_log "[ESP L] Attempted to send command while ESP L not connected.") ∧
    (render_home_page_pelt_1 s sendErr).1.pelt_temp_1_old = s.pelt_temp_1 ∧
    (∀ v, (render_home_page_pelt_2 s sendErr).2 = some v →
       s.esp_connected_2 = true ∧ s.pelt_temp_2 ≠ s.pelt_temp_2_old ∧ v = s.pelt_temp_2) ∧
    (s.esp_connected_2 = false → s.pelt_temp_2 ≠ s.pelt_temp_2_old →
       (render_home_page_pelt_2 s sendErr).2 = none ∧
       (render_home_page_pelt_2 s sendErr).1.esp_log =
         logPush s.esp_log "[ESP R] Attempted to send command while ESP R not connected.") ∧
    (render_home_page_pelt_2 s sendErr).1.pelt_temp_2_old = s.pelt_temp_2 :=
  ⟨(render_pelt_1_props s sendErr).1, (render_pelt_1_props s sendErr).2.1,
   (render_pelt_1_props s sendErr).2.2, (render_pelt_2_props s sendErr).1,
   (render_pelt_2_props s sendErr).2.1, (render_pelt_2_props s sendErr).2.2⟩

/-- C8 witness: in a connected state with a present sender and a changed
target 5, the tick issues `setTemp 5`, and the amended properties hold
of it. -/
theorem c8_witness :
    ((render_home_page_pelt_1 c8State none).2 = some 5) ∧
    (c8State.esp_connected_1 = true ∧
      c8State.pelt_temp_1 ≠ c8State.pelt_temp_1_old ∧
      (5 : Int) = c8State.pelt_temp_1) :=
  ⟨by decide, (c8_amended_edge_detection c8State none).1 5 (by decide)⟩

/-- C10: starting from any log within the 200-entry cap, any sequence of
appends through the rolling log's push (`logPush`, the `esp_log` update
of `add_esp_log_message`) leaves exactly the most recent entries in
oldest-first order — the suffix of the full append sequence obtained by
dropping all but the last 200 — never exceeds 200 entries, and each
append to a full log evicts exactly the oldest entry.  In particular,
pushing 250 messages into an empty log leaves exactly the most recent
200 in order. -/
theorem c10_log_bound (l ms : List String) (h : l.length ≤ 200) :
    List.foldl logPush l ms = (l ++ ms).drop (l.length + ms.length - 200) ∧
    (List.foldl logPush l ms).length ≤ 200 ∧
    (∀ m, l.length = 200 → logPush l m = l.drop 1 ++ [m]) ∧
    (∀ t id msg, (add_esp_log_message t id msg).esp_log =
       logPush t.esp_log ("[" ++ id ++ "] " ++ msg)) := by
  refine ⟨foldl_logPush_drop ms l h, ?_, ?_, fun t id msg => rfl⟩
  · rw [foldl_logPush_drop ms l h, List.length_drop, List.length_append]
    omega
  · intro m hm
    unfold logPush
    rw [if_pos (by simp [hm]), List.drop_append_of_le_length (by omega)]

/-- C10 witness: an append to a full (200-entry) log evicts exactly the
oldest entry. -/
theorem c10_witness :
    (List.replicate 200 "x").length ≤ 200 ∧
    logPush (List.replicate 200 "x") "y" = (List.replicate 200 "x").drop 1 ++ ["y"] :=
  ⟨by rw [List.length_replicate],
   (c10_log_bound (List.replicate 200 "x") [] (by rw [List.length_replicate])).2.2.1 "y"
     (by rw [List.length_replicate])⟩
